import Mathlib

/-!
Verification of the simple-mcp-server tool/adapter layer.

The Python source is embedded shallowly:
* JSON values become the inductive `JVal`; Python dicts become association
  lists `List (String × JVal)` (an `Envelope`).
* One outbound HTTP interaction becomes a `TransportOutcome`: either a raised
  transport exception carrying its message, or a response with status code,
  body text, and the decoded JSON body (`none` when the text is not valid
  JSON, in which case calling `.json()` raises inside the adapter `try`).
* Each adapter method (`app/clients/*.py`) becomes a pure function from the
  `TransportOutcome` of its single HTTP call to the envelope it returns.
* Each server tool (`server.py`) becomes a pure function of its arguments and
  the outcomes of the backend calls it may issue; tools additionally return
  the outbound request dictionaries they build, so that (non-)invocation of
  the backend is visible in the model.  A tool that can raise an uncaught
  Python exception is modelled with an `Option` result, `none` meaning the
  exception propagates to the caller.
-/

namespace SimpleMcp

/-- A JSON value.  Numbers are modelled as exact rationals. -/
inductive JVal where
  | null
  | bool (b : Bool)
  | num (q : ℚ)
  | str (s : String)
  | arr (xs : List JVal)
  | obj (fields : List (String × JVal))

/-- An envelope / Python dict: an association list of string keys. -/
abbrev Envelope := List (String × JVal)

/-- Python truthiness of a JSON value (`if x:`). -/
def jTruthy : JVal → Bool
  | .null => false
  | .bool b => b
  | .num q => decide (q ≠ 0)
  | .str s => decide (s ≠ "")
  | .arr xs => !xs.isEmpty
  | .obj fs => !fs.isEmpty

/-- Python `d.get(k, default)` on a dict. -/
def dget (fs : Envelope) (k : String) (d : JVal) : JVal :=
  (fs.lookup k).getD d

/-- Python `d[k] = v` on a dict that may or may not already hold `k`. -/
def dset (fs : Envelope) (k : String) (v : JVal) : Envelope :=
  if (fs.lookup k).isSome then
    fs.map (fun p => if p.1 = k then (k, v) else p)
  else
    fs ++ [(k, v)]

/-- Python truthiness of an optional string argument (`if s:`). -/
def strTruthy : Option String → Bool
  | none => false
  | some s => decide (s ≠ "")

/-- Python truthiness of an optional integer argument (`if n:`). -/
def intTruthy : Option ℤ → Bool
  | none => false
  | some n => decide (n ≠ 0)

/-- Lowercasing as used for `str.lower()`; the strings compared in the source
are ASCII, where this agrees with Python. -/
def pyLower (s : String) : String := String.mk (s.toList.map Char.toLower)

/-- Helper for substring containment: does `n` occur starting at some
position of the second list? -/
def containsFrom (n : List Char) : List Char → Bool
  | [] => n.isPrefixOf ([] : List Char)
  | c :: rest => n.isPrefixOf (c :: rest) || containsFrom n rest

/-- Python `needle in haystack` on strings: substring containment. -/
def strContains (needle hay : String) : Bool :=
  containsFrom needle.toList hay.toList

/-- Python `s[:n]`. -/
def pyTake (n : ℕ) (s : String) : String := String.mk (s.toList.take n)

/-- Python `str(x)` applied to a JSON value.  Strings are returned verbatim
and `None`/booleans render as in Python; the rendering of numbers, lists and
dicts is simplified (no claim depends on it: the fields passed through `str`
in the source are strings or absent). -/
def pyStr : JVal → String
  | .null => "None"
  | .bool true => "True"
  | .bool false => "False"
  | .num q => toString q
  | .str s => s
  | .arr _ => "list"
  | .obj _ => "dict"

/-- Outcome of one outbound HTTP call: a raised transport exception with its
message, or a response.  `body` is the decoded JSON (`none` when the body
text does not parse, so that `response.json()` raises). -/
inductive TransportOutcome where
  | exn (msg : String)
  | resp (status : ℕ) (text : String) (body : Option JVal)

/-- Envelope produced by the bare `except Exception` clause every adapter
method ends with: `\x7b"success": False, "error": str(e)\x7d`. -/
def errExn (msg : String) : Envelope :=
  [("success", .bool false), ("error", .str msg)]

/-- Envelope for the generic unexpected-status branch shared by the adapters. -/
def failStatus (status : ℕ) (text : String) : Envelope :=
  [("success", .bool false),
   ("error", .str ("Failed with status " ++ toString status)),
   ("message", .str text)]

/-- Message of the exception raised by `response.json()` on an undecodable
body; the exact library text is not modelled, only that the `except` branch
produces it. -/
def jsonDecodeMsg (text : String) : String := "Invalid JSON body: " ++ text

/-- Message of the `AttributeError` raised by calling `.get` on a decoded
body that is not a dict; the exact text is not modelled. -/
def attrErrMsg : String := "AttributeError: get"

namespace AutotaskClient

/-- `AutotaskClient.get_statuses`: 200 with a decodable body yields
`success=True` with the body under `statuses`; any other status yields the
generic failure envelope; exceptions yield the except-branch envelope. -/
def get_statuses (o : TransportOutcome) : Envelope :=
  match o with
  | .exn m => errExn m
  | .resp s t b =>
    if s = 200 then
      match b with
      | some j => [("success", .bool true), ("statuses", j)]
      | none => errExn (jsonDecodeMsg t)
    else failStatus s t

end AutotaskClient

namespace PSAInitializationClient

/-- `PSAInitializationClient.get_clients`: 204 yields an empty `clients` list
with a message, 200 yields the decoded body, anything else the generic
failure envelope. -/
def get_clients (o : TransportOutcome) : Envelope :=
  match o with
  | .exn m => errExn m
  | .resp s t b =>
    if s = 204 then
      [("success", .bool true), ("clients", .arr []),
       ("message", .str "No clients found")]
    else if s = 200 then
      match b with
      | some j => [("success", .bool true), ("clients", j)]
      | none => errExn (jsonDecodeMsg t)
    else failStatus s t

/-- `PSAInitializationClient.get_contacts`, same shape with key `contacts`. -/
def get_contacts (o : TransportOutcome) : Envelope :=
  match o with
  | .exn m => errExn m
  | .resp s t b =>
    if s = 204 then
      [("success", .bool true), ("contacts", .arr []),
       ("message", .str "No contacts found")]
    else if s = 200 then
      match b with
      | some j => [("success", .bool true), ("contacts", j)]
      | none => errExn (jsonDecodeMsg t)
    else failStatus s t

/-- `PSAInitializationClient.get_members`, same shape with key `members`. -/
def get_members (o : TransportOutcome) : Envelope :=
  match o with
  | .exn m => errExn m
  | .resp s t b =>
    if s = 204 then
      [("success", .bool true), ("members", .arr []),
       ("message", .str "No members found")]
    else if s = 200 then
      match b with
      | some j => [("success", .bool true), ("members", j)]
      | none => errExn (jsonDecodeMsg t)
    else failStatus s t

end PSAInitializationClient

namespace WeaviateClient

/-- `WeaviateClient.test_connection`: returns a `connected` flag (there is no
`success` key in this envelope), the body text or a failure message, and the
status code. -/
def test_connection (o : TransportOutcome) : Envelope :=
  match o with
  | .exn m =>
    [("connected", .bool false),
     ("message", .str ("Connection failed: " ++ m)),
     ("error", .str m)]
  | .resp s t _ =>
    [("connected", .bool (s = 200)),
     ("message", .str (if s = 200 then t else "Failed with status " ++ toString s)),
     ("status_code", .num s)]

/-- `WeaviateClient.check_schema_exists`: on 200, `schema_exists` is computed
by the substring test `"true" in response.text.lower()`. -/
def check_schema_exists (o : TransportOutcome) : Envelope :=
  match o with
  | .exn m => errExn m
  | .resp s t _ =>
    if s = 200 then
      [("success", .bool true),
       ("schema_exists", .bool (strContains "true" (pyLower t))),
       ("raw_response", .str t)]
    else
      [("success", .bool false),
       ("error", .str ("Failed with status " ++ toString s)),
       ("response", .str t)]

/-- `WeaviateClient.create_schema`: `success` is exactly `status == 200`. -/
def create_schema (o : TransportOutcome) : Envelope :=
  match o with
  | .exn m => errExn m
  | .resp s t _ =>
    [("success", .bool (s = 200)), ("message", .str t), ("status_code", .num s)]

end WeaviateClient

namespace PSATimeEntryClient

/-- `PSATimeEntryClient.create_time_entry`: on 200 the envelope `success` is
`result.get("success", True)` — taken from the decoded body, defaulting to
`True`; on 500 the error is taken from the body; a non-dict decoded body
makes `.get` raise, landing in the except branch. -/
def create_time_entry (o : TransportOutcome) : Envelope :=
  match o with
  | .exn m => errExn m
  | .resp s t b =>
    if s = 200 then
      match b with
      | some (.obj fs) =>
        [("success", dget fs "success" (.bool true)),
         ("time_entry", .obj fs),
         ("message", .str "Time entry created successfully")]
      | some _ => errExn attrErrMsg
      | none => errExn (jsonDecodeMsg t)
    else if s = 500 then
      match b with
      | some (.obj fs) =>
        [("success", .bool false),
         ("error", dget fs "error" (.str "Time entry creation failed")),
         ("details", .obj fs)]
      | some _ => errExn attrErrMsg
      | none => errExn (jsonDecodeMsg t)
    else failStatus s t

end PSATimeEntryClient

namespace ConnectWiseTicketingClient

/-- `ConnectWiseTicketingClient.get_ticket_board_categorization`: 200 yields
the decoded body under `board_categorization`. -/
def get_ticket_board_categorization (o : TransportOutcome) : Envelope :=
  match o with
  | .exn m => errExn m
  | .resp s t b =>
    if s = 200 then
      match b with
      | some j => [("success", .bool true), ("board_categorization", j)]
      | none => errExn (jsonDecodeMsg t)
    else failStatus s t

/-- `ConnectWiseTicketingClient.create_board_ticket`: 200 yields the decoded
body under `ticket`.  The outbound request is tracked by the calling tool. -/
def create_board_ticket (o : TransportOutcome) : Envelope :=
  match o with
  | .exn m => errExn m
  | .resp s t b =>
    if s = 200 then
      match b with
      | some j => [("success", .bool true), ("ticket", j)]
      | none => errExn (jsonDecodeMsg t)
    else failStatus s t

end ConnectWiseTicketingClient

namespace PSATicketingClient

/-- `PSATicketingClient.get_ticket_diagnostic_qa`: 200 yields the decoded
body under `diagnostic_qa`; 400 yields the dedicated Bad Request envelope. -/
def get_ticket_diagnostic_qa (o : TransportOutcome) : Envelope :=
  match o with
  | .exn m => errExn m
  | .resp s t b =>
    if s = 200 then
      match b with
      | some j => [("success", .bool true), ("diagnostic_qa", j)]
      | none => errExn (jsonDecodeMsg t)
    else if s = 400 then
      [("success", .bool false), ("error", .str "Bad Request"),
       ("message", .str "Either userId or techId must be provided")]
    else failStatus s t

/-- `PSATicketingClient.create_ticket`: 200 yields the decoded body under
`ticket`; 400 yields a Bad Request envelope carrying the body text. -/
def create_ticket (o : TransportOutcome) : Envelope :=
  match o with
  | .exn m => errExn m
  | .resp s t b =>
    if s = 200 then
      match b with
      | some j => [("success", .bool true), ("ticket", j)]
      | none => errExn (jsonDecodeMsg t)
    else if s = 400 then
      [("success", .bool false), ("error", .str "Bad Request"), ("message", .str t)]
    else failStatus s t

end PSATicketingClient

namespace PSAClient

/-- The two fixed sample rows returned when `USE_MOCK_DATA` is set. -/
def mockTickets : List JVal :=
  [.obj [("id", .str "1"), ("title", .str "Printer not working"),
         ("status", .str "Open"), ("priority", .str "High"),
         ("created_at", .str "2024-01-15T10:00:00Z"),
         ("updated_at", .str "2024-01-15T14:30:00Z")],
   .obj [("id", .str "2"), ("title", .str "Email issues"),
         ("status", .str "In Progress"), ("priority", .str "Medium"),
         ("created_at", .str "2024-01-14T09:00:00Z"),
         ("updated_at", .str "2024-01-15T11:00:00Z")]]

/-- Message of the `HTTPStatusError` raised by `raise_for_status`; the exact
library text is not modelled. -/
def httpStatusErrMsg (s : ℕ) : String := "HTTPStatusError " ++ toString s

/-- `PSAClient.get_tickets_by_domain`: returns the raw decoded body on a 2xx
response (`raise_for_status` raises on any other status, which the method
converts into a one-element list holding an error row); a transport
exception or an undecodable body likewise becomes a one-element error-row
list.  Note this method returns a bare list, not a result envelope. -/
def get_tickets_by_domain (useMock : Bool) (o : TransportOutcome) : JVal :=
  if useMock then .arr mockTickets
  else
    match o with
    | .exn m =>
      .arr [.obj [("error", .str "Connection error"), ("message", .str m)]]
    | .resp s t b =>
      if 200 ≤ s ∧ s ≤ 299 then
        match b with
        | some j => j
        | none =>
          .arr [.obj [("error", .str "Connection error"),
                      ("message", .str (jsonDecodeMsg t))]]
      else
        .arr [.obj [("error", .str ("HTTP error: " ++ toString s)),
                    ("message", .str (httpStatusErrMsg s))]]

end PSAClient

/-- Simplified model of the string set pydantic accepts for a `datetime`
field: an ISO date `YYYY-MM-DD`, optionally followed by `T` and a
`HH:MM:SS` time with an arbitrary suffix (fraction / timezone).  The exact
boundary of the accepted set is irrelevant to the claims; only presence and
well-formedness of the field matter. -/
def isIsoDatetimeStr (s : String) : Bool :=
  let l := s.toList
  let dOK : ℕ → Bool := fun i =>
    match l.get? i with
    | some c => c.isDigit
    | none => false
  let cOK : ℕ → Char → Bool := fun i c => l.get? i == some c
  (dOK 0 && dOK 1 && dOK 2 && dOK 3 && cOK 4 '-' && dOK 5 && dOK 6 &&
   cOK 7 '-' && dOK 8 && dOK 9) &&
  (l.length == 10 ||
   (cOK 10 'T' && dOK 11 && dOK 12 && cOK 13 ':' && dOK 14 && dOK 15 &&
    cOK 16 ':' && dOK 17 && dOK 18))

/-- Does this JSON value validate as a pydantic `datetime`?  Numbers (unix
timestamps) and ISO strings are accepted. -/
def isDatetimeJ : JVal → Bool
  | .num _ => true
  | .str s => isIsoDatetimeStr s
  | _ => false

/-- A required `str` field: present with a string value. -/
def expectStr : Option JVal → Option String
  | some (.str s) => some s
  | _ => none

/-- The `priority : Optional[str] = None` field: absent or null gives null,
a string passes through, anything else fails validation. -/
def parsePriority : Option JVal → Option JVal
  | none => some .null
  | some .null => some .null
  | some (.str s) => some (.str s)
  | _ => none

/-- `Ticket(**fields).model_dump()`: validate the row against the `Ticket`
schema (`app/schemas/ticket.py`) and rebuild the dict; `none` means pydantic
raises a `ValidationError`. -/
def ticketDump (fs : Envelope) : Option JVal := do
  let id ← expectStr (fs.lookup "id")
  let title ← expectStr (fs.lookup "title")
  let status ← expectStr (fs.lookup "status")
  let priority ← parsePriority (fs.lookup "priority")
  let ca ← fs.lookup "created_at"
  let ua ← fs.lookup "updated_at"
  if isDatetimeJ ca && isDatetimeJ ua then
    some (.obj [("id", .str id), ("title", .str title), ("status", .str status),
                ("priority", priority), ("created_at", ca), ("updated_at", ua)])
  else none

/-- One row through `Ticket(**ticket)`: a non-dict row makes the `**`
expansion raise a `TypeError`. -/
def parseTicketRow : JVal → Option JVal
  | .obj fs => ticketDump fs
  | _ => none

namespace Server

/-- Tool `get_tickets_by_domain` (`server.py`): fetches the raw rows and maps
`Ticket(**ticket).model_dump()` over them with no exception handling —
`none` models an exception propagating out of the tool.  Iterating a
non-list body raises unless it is empty (an empty dict or string iterates
zero times). -/
def get_tickets_by_domain (useMock : Bool) (o : TransportOutcome) :
    Option (List JVal) :=
  match PSAClient.get_tickets_by_domain useMock o with
  | .arr rows => rows.mapM parseTicketRow
  | .obj [] => some []
  | .str "" => some []
  | _ => none

/-- Tool `create_weaviate_schema`: checks existence first; when the check
envelope has truthy `success` and `schema_exists` it answers without calling
the creation endpoint, otherwise it returns the creation call envelope.  The
boolean records whether the creation call was issued. -/
def create_weaviate_schema (checkO createO : TransportOutcome) :
    Envelope × Bool :=
  let check := WeaviateClient.check_schema_exists checkO
  if jTruthy (dget check "success" .null) && jTruthy (dget check "schema_exists" .null) then
    ([("success", .bool true), ("status", .str "already_exists"),
      ("message", .str "Schema already exists")], false)
  else
    (WeaviateClient.create_schema createO, true)

/-- Tool `create_smart_ticket`: gets AI board categorization; a falsy
`success` returns that envelope verbatim without creating a ticket.  Result
is `(tool result, creation request)`; a `none` result models a propagated
exception (indexing or `.get` on a non-dict categorization payload), a
`none` request means the creation call was never issued. -/
def create_smart_ticket (issue_description : String) (company_id contact_id : ℤ)
    (catO createO : TransportOutcome) : Option Envelope × Option Envelope :=
  let catRes := ConnectWiseTicketingClient.get_ticket_board_categorization catO
  if !(jTruthy (dget catRes "success" .null)) then (some catRes, none)
  else
    match catRes.lookup "board_categorization" with
    | some (.obj bc) =>
      let details :=
        [("boardId", dget bc "boardId" .null),
         ("summary", dget bc "summary" (.str (pyTake 100 issue_description))),
         ("description", .str issue_description),
         ("companyId", .num company_id)]
        ++ (if decide (contact_id ≠ 0) then [("contactId", .num contact_id)] else [])
        ++ (if jTruthy (dget bc "categoryId" .null) then
              [("categoryId", dget bc "categoryId" .null)] else [])
        ++ (if jTruthy (dget bc "subcategoryId" .null) then
              [("subcategoryId", dget bc "subcategoryId" .null)] else [])
        ++ (if jTruthy (dget bc "priorityId" .null) then
              [("priorityId", dget bc "priorityId" .null)] else [])
        ++ (if jTruthy (dget bc "statusId" .null) then
              [("statusId", dget bc "statusId" .null)] else [])
      (some (ConnectWiseTicketingClient.create_board_ticket createO), some details)
    | some _ => (none, none)
    | none => (none, none)

/-- The validation envelope shared by `create_psa_ticket` and
`create_psa_ticket_with_ai`. -/
def ticketValidationEnv : Envelope :=
  [("success", .bool false), ("error", .str "Validation Error"),
   ("message", .str "If userId is null, techId and psaCompanyId are mandatory")]

/-- Optional string argument included in a request only when truthy. -/
def optStr (k : String) (v : Option String) : Envelope :=
  if strTruthy v then [(k, .str (v.getD ""))] else []

/-- Optional integer argument included in a request only when truthy. -/
def optInt (k : String) (v : Option ℤ) : Envelope :=
  if intTruthy v then [(k, .num (v.getD 0))] else []

/-- Tool `get_psa_ticket_diagnostic`: requires at least one of
`user_id`, `tech_id` before dispatching; the boolean records whether the
backend call was issued. -/
def get_psa_ticket_diagnostic (user_id tech_id : Option String)
    (o : TransportOutcome) : Envelope × Bool :=
  if !(strTruthy user_id) && !(strTruthy tech_id) then
    ([("success", .bool false), ("error", .str "Validation Error"),
      ("message", .str "Either user_id or tech_id must be provided")], false)
  else
    (PSATicketingClient.get_ticket_diagnostic_qa o, true)

/-- Tool `create_psa_ticket`: validates that `user_id` is truthy or both
`tech_id` and `psa_company_id` are, then builds the ticket request (optional
arguments included only when truthy) and dispatches.  Result is
`(envelope, outbound request)`; a `none` request means no network call. -/
def create_psa_ticket (psa_type summary description : String) (board_id : ℤ)
    (user_id tech_id : Option String)
    (psa_company_id priority_id category_id subcategory_id : Option ℤ)
    (o : TransportOutcome) : Envelope × Option Envelope :=
  if !(strTruthy user_id) && (!(strTruthy tech_id) || !(intTruthy psa_company_id)) then
    (ticketValidationEnv, none)
  else
    let req :=
      [("psaType", .str psa_type), ("summary", .str summary),
       ("description", .str description), ("boardId", .num board_id)]
      ++ optStr "userId" user_id ++ optStr "techId" tech_id
      ++ optInt "psaCompanyId" psa_company_id ++ optInt "priorityId" priority_id
      ++ optInt "categoryId" category_id ++ optInt "subcategoryId" subcategory_id
    (PSATicketingClient.create_ticket o, some req)

/-- Optional string rendered as a JSON value (`None` becomes null): used
where the source includes the argument unconditionally. -/
def jOfOptStr : Option String → JVal
  | none => .null
  | some s => .str s

/-- Optional integer rendered as a JSON value (`None` becomes null). -/
def jOfOptInt : Option ℤ → JVal
  | none => .null
  | some n => .num n

/-- Result of one `create_psa_ticket_with_ai` run: the tool result (`none`
models a propagated exception), whether the diagnostic backend call was
issued, and the creation request when the creation call was issued. -/
structure AiTicketRun where
  result : Option Envelope
  diagnostic_called : Bool
  create_request : Option Envelope

/-- Tool `create_psa_ticket_with_ai`: same validation as `create_psa_ticket`;
then a diagnostic call whose failure envelope is returned verbatim; then the
creation call, with `ai_categorization` appended on success. -/
def create_psa_ticket_with_ai (psa_type issue_description : String)
    (user_id tech_id : Option String) (psa_company_id : Option ℤ)
    (diagO createO : TransportOutcome) : AiTicketRun :=
  if !(strTruthy user_id) && (!(strTruthy tech_id) || !(intTruthy psa_company_id)) then
    ⟨some ticketValidationEnv, false, none⟩
  else
    let diag := PSATicketingClient.get_ticket_diagnostic_qa diagO
    if !(jTruthy (dget diag "success" .null)) then ⟨some diag, true, none⟩
    else
      match dget diag "diagnostic_qa" (.obj []) with
      | .obj qa =>
        let req :=
          [("psaType", .str psa_type),
           ("summary", dget qa "summary" (.str (pyTake 100 issue_description))),
           ("description", .str issue_description),
           ("boardId", dget qa "boardId" (.num 1)),
           ("userId", jOfOptStr user_id),
           ("techId", jOfOptStr tech_id),
           ("psaCompanyId", jOfOptInt psa_company_id)]
          ++ (if jTruthy (dget qa "priorityId" .null) then
                [("priorityId", dget qa "priorityId" .null)] else [])
          ++ (if jTruthy (dget qa "categoryId" .null) then
                [("categoryId", dget qa "categoryId" .null)] else [])
          ++ (if jTruthy (dget qa "subcategoryId" .null) then
                [("subcategoryId", dget qa "subcategoryId" .null)] else [])
        let createRes := PSATicketingClient.create_ticket createO
        let final :=
          if jTruthy (dget createRes "success" .null) then
            dset createRes "ai_categorization" (.obj qa)
          else createRes
        ⟨some final, true, some req⟩
      | _ => ⟨none, true, none⟩

/-- Tool `create_psa_time_entry`: converts hours to minutes when the unit
tag lowercases to `hours`, builds the outbound request, and dispatches.
`today` stands for `datetime.now().strftime("%Y-%m-%d")`.  Result is
`(envelope, outbound request)`. -/
def create_psa_time_entry (msp_custom_domain ticket_id technician_id : String)
    (time_spent : ℚ) (notes work_date : String) (billable : Bool)
    (time_unit : String) (today : String) (o : TransportOutcome) :
    Envelope × Envelope :=
  let time_in_minutes := if pyLower time_unit = "hours" then time_spent * 60 else time_spent
  let req :=
    [("mspCustomDomain", .str msp_custom_domain), ("ticketId", .str ticket_id),
     ("technicianId", .str technician_id), ("timeSpent", .num time_in_minutes),
     ("notes", .str notes), ("billable", .bool billable),
     ("workDate", .str (if work_date ≠ "" then work_date else today))]
  (PSATimeEntryClient.create_time_entry o, req)

/-- Python `round(q, 2)` on an exact rational: round-half-to-even at two
decimal places.  Binary floating point representation is not modelled; the
quantities rounded in the source are sums of JSON numbers. -/
def roundHalfToEven (q : ℚ) : ℤ :=
  let n : ℤ := ⌊q⌋
  let f : ℚ := q - n
  if f < 1/2 then n
  else if 1/2 < f then n + 1
  else if n % 2 = 0 then n else n + 1

/-- `round(q / 100 scaled, 2)` as used for `total_hours_logged`. -/
def pyRound2 (q : ℚ) : ℚ := (roundHalfToEven (q * 100) : ℚ) / 100

/-- The outbound request `log_bulk_time_entries` builds for one entry. -/
def bulkEntryRequest (domain tech today : String) (e : Envelope) : Envelope :=
  [("mspCustomDomain", .str domain),
   ("ticketId", dget e "ticket_id" .null),
   ("technicianId", .str tech),
   ("timeSpent", dget e "time_minutes" (.num 0)),
   ("notes", dget e "notes" (.str "")),
   ("billable", dget e "billable" (.bool true)),
   ("workDate", dget e "work_date" (.str today))]

/-- Accumulated state of the bulk loop: outbound requests, success and
failure counts, logged minutes, and the per-entry result dicts, all in
input order. -/
structure BulkAccum where
  requests : List Envelope
  successful : ℕ
  failed : ℕ
  total_minutes : ℚ
  entry_results : List Envelope

/-- The loop body of `log_bulk_time_entries`, entry by entry.  `oracle i` is
the transport outcome of the call made for the i-th entry.  `none` models a
propagated exception: on the success path the source adds
`entry.get("time_minutes", 0)` to a counter (a `TypeError` unless numeric)
and reads `result.get("time_entry", \x7b\x7d).get("id")`. -/
def log_bulk_aux (domain tech today : String) (oracle : ℕ → TransportOutcome) :
    List Envelope → ℕ → Option BulkAccum
  | [], _ => some ⟨[], 0, 0, 0, []⟩
  | e :: rest, i =>
    let req := bulkEntryRequest domain tech today e
    let result := PSATimeEntryClient.create_time_entry (oracle i)
    let baseEntry :=
      [("ticket_id", dget e "ticket_id" .null),
       ("success", dget result "success" (.bool false)),
       ("minutes", dget e "time_minutes" (.num 0))]
    if jTruthy (dget result "success" .null) then
      match dget e "time_minutes" (.num 0), dget result "time_entry" (.obj []) with
      | .num q, .obj te =>
        (log_bulk_aux domain tech today oracle rest (i + 1)).map
          (fun acc =>
            ⟨req :: acc.requests, acc.successful + 1, acc.failed,
             q + acc.total_minutes,
             (baseEntry ++ [("time_entry_id", dget te "id" .null)]) :: acc.entry_results⟩)
      | _, _ => none
    else
      (log_bulk_aux domain tech today oracle rest (i + 1)).map
        (fun acc =>
          ⟨req :: acc.requests, acc.successful, acc.failed + 1, acc.total_minutes,
           (baseEntry ++ [("error", dget result "error" (.str "Unknown error"))]) :: acc.entry_results⟩)

/-- The aggregate result dict of `log_bulk_time_entries`, plus the list of
outbound requests issued. -/
structure BulkResult where
  total_entries : ℕ
  successful : ℕ
  failed : ℕ
  total_minutes_logged : ℚ
  entries : List Envelope
  overall_success : Bool
  total_hours_logged : ℚ
  requests : List Envelope

/-- Tool `log_bulk_time_entries`: attempts one backend call per entry in
input order, counts successes and failures, sums the logged minutes of the
successful entries, and derives `overall_success` and `total_hours_logged`. -/
def log_bulk_time_entries (domain tech today : String) (entries : List Envelope)
    (oracle : ℕ → TransportOutcome) : Option BulkResult :=
  (log_bulk_aux domain tech today oracle entries 0).map
    (fun acc =>
      ⟨entries.length, acc.successful, acc.failed, acc.total_minutes,
       acc.entry_results, decide (acc.failed = 0),
       pyRound2 (acc.total_minutes / 60), acc.requests⟩)

/-- The `time_minutes` value of a bulk entry as a rational (the source reads
`entry.get("time_minutes", 0)`); non-numeric values are mapped to 0, but the
theorems only use this under a numeric-field hypothesis. -/
def entryMinutes (e : Envelope) : ℚ :=
  match dget e "time_minutes" (.num 0) with
  | .num q => q
  | _ => 0

/-- Specification-side quantity for the bulk tool: the sum of `time_minutes`
over the entries whose backend call (as given by the oracle, starting at
index `i`) returned a successful envelope. -/
def succeededMinutes (oracle : ℕ → TransportOutcome) :
    List Envelope → ℕ → ℚ
  | [], _ => 0
  | e :: rest, i =>
    (if jTruthy (dget (PSATimeEntryClient.create_time_entry (oracle i)) "success" .null)
     then entryMinutes e else 0) + succeededMinutes oracle rest (i + 1)

/-- Specification-side count for the bulk tool: how many of the entries,
starting at oracle index `i`, receive a successful backend envelope. -/
def succeededCount (oracle : ℕ → TransportOutcome) :
    List Envelope → ℕ → ℕ
  | [], _ => 0
  | _ :: rest, i =>
    (if jTruthy (dget (PSATimeEntryClient.create_time_entry (oracle i)) "success" .null)
     then 1 else 0) + succeededCount oracle rest (i + 1)

/-- The two-entry example from the specification: 30 minutes on ticket 1,
60 minutes on ticket 2. -/
def exampleEntries : List Envelope :=
  [[("ticket_id", .str "1"), ("time_minutes", .num 30)],
   [("ticket_id", .str "2"), ("time_minutes", .num 60)]]

/-- A backend where the first call succeeds and every later call fails with
a transport error. -/
def exampleOracle : ℕ → TransportOutcome := fun i =>
  if i = 0 then .resp 200 "ok" (some (.obj [])) else .exn "Connection refused"

/-- Does one entity dict match the search term?  Mirrors the five-field
case-insensitive substring test of `search_psa_entities`. -/
def entityMatches (searchLower : String) (fs : Envelope) : Bool :=
  strContains searchLower (pyLower (pyStr (dget fs "name" (.str "")))) ||
  strContains searchLower (pyLower (pyStr (dget fs "firstName" (.str "")))) ||
  strContains searchLower (pyLower (pyStr (dget fs "lastName" (.str "")))) ||
  strContains searchLower (pyLower (pyStr (dget fs "email" (.str "")))) ||
  strContains searchLower (pyLower (pyStr (dget fs "companyName" (.str ""))))

/-- The filtering loop of `search_psa_entities`; a non-dict element makes
`.get` raise (`none`). -/
def filterEntities (searchLower : String) : List JVal → Option (List JVal)
  | [] => some []
  | .obj fs :: rest =>
    (filterEntities searchLower rest).map
      (fun r => if entityMatches searchLower fs then .obj fs :: r else r)
  | _ :: _ => none

/-- Post-fetch part of `search_psa_entities`: pass failures through, filter
when a truthy search term and a truthy payload are present, and annotate the
result with `filtered`, `search_term` and `total_found`. -/
def search_filter (search_term entity_key : String) (result : Envelope) :
    Option Envelope :=
  if !(jTruthy (dget result "success" .null)) then some result
  else if decide (search_term ≠ "") && jTruthy (dget result entity_key .null) then
    match dget result entity_key .null with
    | .arr es =>
      match filterEntities (pyLower search_term) es with
      | some filtered =>
        some (dset (dset (dset (dset result entity_key (.arr filtered))
                "filtered" (.bool true)) "search_term" (.str search_term))
              "total_found" (.num (filtered.length : ℚ)))
      | none => none
    | _ => none
  else some result

/-- A single-quote character, written by code point to keep the modelled
message text byte-identical to the source. -/
def singleQuote : String := (Char.ofNat 39).toString

/-- The envelope returned for an unrecognized `entity_type`. -/
def invalidEntityTypeEnv (entity_type : String) : Envelope :=
  [("success", .bool false),
   ("error", .str ("Invalid entity type: " ++ entity_type)),
   ("message", .str ("Entity type must be " ++ singleQuote ++ "clients" ++
     singleQuote ++ ", " ++ singleQuote ++ "contacts" ++ singleQuote ++
     ", or " ++ singleQuote ++ "members" ++ singleQuote))]

/-- Tool `search_psa_entities`: dispatches on `entity_type.lower()`, fetching
and filtering for the three known entity types and returning a validation
envelope otherwise.  Result is `(tool result, fetched entity key)`; a `none`
key means no backend call was made, a `none` result models a propagated
exception while filtering. -/
def search_psa_entities (entity_type search_term : String)
    (o : TransportOutcome) : Option Envelope × Option String :=
  if pyLower entity_type = "clients" then
    (search_filter search_term "clients" (PSAInitializationClient.get_clients o),
     some "clients")
  else if pyLower entity_type = "contacts" then
    (search_filter search_term "contacts" (PSAInitializationClient.get_contacts o),
     some "contacts")
  else if pyLower entity_type = "members" then
    (search_filter search_term "members" (PSAInitializationClient.get_members o),
     some "members")
  else
    (some (invalidEntityTypeEnv entity_type), none)

end Server

/-- C1 counterexample: the time-entry adapter receives HTTP 200 with decoded
body `success=false` and returns an envelope whose `success` field is false —
refuting the claim that any HTTP 200 response yields `success=true`
regardless of the decoded body. -/
theorem time_entry_200_body_controlled_success :
    List.lookup "success"
      (PSATimeEntryClient.create_time_entry
        (.resp 200 "ok" (some (.obj [("success", .bool false)])))) =
      some (.bool false) ∧
    List.lookup "success"
      (PSATimeEntryClient.create_time_entry
        (.resp 200 "ok" (some (.obj [("success", .bool false)])))) ≠
      some (.bool true) := by
  refine ⟨rfl, fun h => Bool.noConfusion (JVal.bool.inj (Option.some.inj h))⟩

/-- C1 (amended): the standard adapters map status to `success` (Autotask
`get_statuses` accepts exactly 200 with a decodable body; the PSA
initialization `get_clients` accepts 204 and 200-with-decodable-body); the
time-entry adapter on HTTP 200 instead copies the `success` field of the
decoded body, defaulting to true; and the Weaviate connection test has no
`success` key at all, exposing `connected`, true exactly on status 200. -/
theorem adapter_success_status_mapping :
    (∀ o : TransportOutcome,
      List.lookup "success" (AutotaskClient.get_statuses o) = some (.bool true) ↔
        ∃ t j, o = .resp 200 t (some j)) ∧
    (∀ o : TransportOutcome,
      List.lookup "success" (PSAInitializationClient.get_clients o) = some (.bool true) ↔
        ((∃ t b, o = .resp 204 t b) ∨ ∃ t j, o = .resp 200 t (some j))) ∧
    (∀ (t : String) (fs : Envelope),
      List.lookup "success"
        (PSATimeEntryClient.create_time_entry (.resp 200 t (some (.obj fs)))) =
        some (dget fs "success" (.bool true))) ∧
    (∀ (s : ℕ) (t : String) (b : Option JVal),
      List.lookup "connected" (WeaviateClient.test_connection (.resp s t b)) =
        some (.bool (s = 200))) ∧
    (∀ m, List.lookup "connected" (WeaviateClient.test_connection (.exn m)) =
        some (.bool false)) ∧
    (∀ o, List.lookup "success" (WeaviateClient.test_connection o) = none) := by
  refine ⟨?_, ?_, ?_, ?_, ?_, ?_⟩
  · intro o
    cases o with
    | exn m => simp [AutotaskClient.get_statuses, errExn, List.lookup]
    | resp s t b =>
      by_cases hs : s = 200
      · subst hs
        cases b with
        | none => simp [AutotaskClient.get_statuses, errExn, List.lookup]
        | some j => simp [AutotaskClient.get_statuses, List.lookup]
      · cases b with
        | none => simp [AutotaskClient.get_statuses, hs, failStatus, List.lookup]
        | some j => simp [AutotaskClient.get_statuses, hs, failStatus, List.lookup]
  · intro o
    cases o with
    | exn m => simp [PSAInitializationClient.get_clients, errExn, List.lookup]
    | resp s t b =>
      by_cases h4 : s = 204
      · subst h4
        simp [PSAInitializationClient.get_clients, List.lookup]
      · by_cases hs : s = 200
        · subst hs
          cases b with
          | none => simp [PSAInitializationClient.get_clients, errExn, List.lookup, h4]
          | some j => simp [PSAInitializationClient.get_clients, List.lookup, h4]
        · cases b with
          | none => simp [PSAInitializationClient.get_clients, hs, h4, failStatus, List.lookup]
          | some j => simp [PSAInitializationClient.get_clients, hs, h4, failStatus, List.lookup]
  · intro t fs
    rfl
  · intro s t b
    rfl
  · intro m
    rfl
  · intro o
    cases o with
    | exn m => rfl
    | resp s t b => rfl

/-- C2 counterexample: the list-returning Autotask `get_statuses` endpoint,
on HTTP 204, returns `success=false` with a generic status error — refuting
the claim that every list-returning endpoint maps 204 to a successful empty
payload. -/
theorem autotask_statuses_204_failure :
    AutotaskClient.get_statuses (.resp 204 "" none) =
      [("success", .bool false), ("error", .str "Failed with status 204"),
       ("message", .str "")] ∧
    List.lookup "success" (AutotaskClient.get_statuses (.resp 204 "" none)) ≠
      some (.bool true) := by
  refine ⟨rfl, fun h => Bool.noConfusion (JVal.bool.inj (Option.some.inj h))⟩

/-- C2 (amended): the generic PSA initialization list endpoints map HTTP 204
to `success=true` with an empty payload and a descriptive message, but the
Autotask list endpoints treat 204 like any unexpected status, yielding
`success=false` with the status in the error label. -/
theorem list_endpoints_204_handling :
    (∀ (t : String) (b : Option JVal),
      PSAInitializationClient.get_clients (.resp 204 t b) =
        [("success", .bool true), ("clients", .arr []),
         ("message", .str "No clients found")]) ∧
    (∀ (t : String) (b : Option JVal),
      PSAInitializationClient.get_contacts (.resp 204 t b) =
        [("success", .bool true), ("contacts", .arr []),
         ("message", .str "No contacts found")]) ∧
    (∀ (t : String) (b : Option JVal),
      PSAInitializationClient.get_members (.resp 204 t b) =
        [("success", .bool true), ("members", .arr []),
         ("message", .str "No members found")]) ∧
    (∀ (t : String) (b : Option JVal),
      AutotaskClient.get_statuses (.resp 204 t b) =
        [("success", .bool false), ("error", .str "Failed with status 204"),
         ("message", .str t)]) := by
  exact ⟨fun t b => rfl, fun t b => rfl, fun t b => rfl, fun t b => rfl⟩

/-- Helper: `isSome` of a `mapM` step over `Option` splits into the head and
tail computations. -/
theorem mapM_cons_isSome {α β : Type} (f : α → Option β) (x : α) (xs : List α) :
    ((x :: xs).mapM f).isSome = ((f x).isSome && (xs.mapM f).isSome) := by
  rw [List.mapM_cons]
  cases hfx : f x with
  | none => simp
  | some b =>
    cases hxs : xs.mapM f with
    | none => simp
    | some ys => simp

/-- Helper: a `mapM` over `Option` produces a value exactly when the function
does on every element. -/
theorem mapM_isSome_iff {α β : Type} (f : α → Option β) (xs : List α) :
    (xs.mapM f).isSome ↔ ∀ x ∈ xs, (f x).isSome := by
  induction xs with
  | nil => simp [List.mapM.loop]
  | cons x xs ih =>
    rw [mapM_cons_isSome, List.forall_mem_cons, Bool.and_eq_true]
    exact and_congr Iff.rfl ih

/-- C3 counterexample: a backend transport failure makes the
`get_tickets_by_domain` tool raise (the client converts the failure into an
error row, which then fails `Ticket` validation inside the tool, which has
no exception handling) — refuting the claim that no tool invocation ever
propagates an exception. -/
theorem get_tickets_tool_propagates_validation_error :
    Server.get_tickets_by_domain false (.exn "connection refused") = none := rfl

/-- C3 (amended): the `get_tickets_by_domain` tool returns a value exactly
when every row the backend returned validates against the `Ticket` schema;
any invalid row (in particular the error rows produced on backend failure)
makes the pydantic validation raise out of the tool.  In mock mode the two
sample rows validate and are returned. -/
theorem get_tickets_by_domain_row_validation :
    (∀ (o : TransportOutcome) (rows : List JVal),
      PSAClient.get_tickets_by_domain false o = .arr rows →
      ((Server.get_tickets_by_domain false o).isSome ↔
        ∀ r ∈ rows, (parseTicketRow r).isSome)) ∧
    (∀ o, Server.get_tickets_by_domain true o = some PSAClient.mockTickets) := by
  constructor
  · intro o rows h
    unfold Server.get_tickets_by_domain
    rw [h]
    exact mapM_isSome_iff _ _
  · intro o
    rfl

/-- C3 witness: a 200 response with an empty ticket list flows through the
tool without raising. -/
theorem get_tickets_by_domain_row_validation_witness :
    (Server.get_tickets_by_domain false (.resp 200 "ok" (some (.arr [])))).isSome :=
  (get_tickets_by_domain_row_validation.1 (.resp 200 "ok" (some (.arr []))) []
    rfl).mpr (by simp)

/-- C4: whenever the AI board-categorization sub-call returns an envelope
with `success=false`, `create_smart_ticket` returns that envelope verbatim
and never issues the ticket-creation request. -/
theorem smart_ticket_short_circuit :
    ∀ (issue : String) (company_id contact_id : ℤ) (catO createO : TransportOutcome),
      dget (ConnectWiseTicketingClient.get_ticket_board_categorization catO)
        "success" .null = .bool false →
      Server.create_smart_ticket issue company_id contact_id catO createO =
        (some (ConnectWiseTicketingClient.get_ticket_board_categorization catO), none) := by
  intro issue cid ctid catO createO h
  simp [Server.create_smart_ticket, h, jTruthy]

/-- C4 witness: a transport failure during categorization yields exactly the
categorization failure envelope, with no creation request built. -/
theorem smart_ticket_short_circuit_witness :
    Server.create_smart_ticket "issue" 1 0 (.exn "boom") (.exn "later") =
      (some (errExn "boom"), none) :=
  smart_ticket_short_circuit "issue" 1 0 (.exn "boom") (.exn "later") rfl

/-- C5: with `user_id` absent and at least one of `tech_id`,
`psa_company_id` absent, both ticket-creation tools return the
`Validation Error` envelope and build no outbound request. -/
theorem ticket_creation_validation_guard :
    (List.lookup "success" Server.ticketValidationEnv = some (.bool false) ∧
     List.lookup "error" Server.ticketValidationEnv = some (.str "Validation Error")) ∧
    (∀ (psa_type summary description : String) (board_id : ℤ)
       (tech_id : Option String)
       (psa_company_id priority_id category_id subcategory_id : Option ℤ)
       (o : TransportOutcome),
      tech_id = none ∨ psa_company_id = none →
      Server.create_psa_ticket psa_type summary description board_id none tech_id
        psa_company_id priority_id category_id subcategory_id o =
        (Server.ticketValidationEnv, none)) ∧
    (∀ (psa_type issue : String) (tech_id : Option String)
       (psa_company_id : Option ℤ) (dO cO : TransportOutcome),
      tech_id = none ∨ psa_company_id = none →
      Server.create_psa_ticket_with_ai psa_type issue none tech_id psa_company_id dO cO =
        ⟨some Server.ticketValidationEnv, false, none⟩) := by
  refine ⟨⟨rfl, rfl⟩, ?_, ?_⟩
  · intro pt su de bid tech pcid pr cat sub o h
    rcases h with h | h <;> subst h <;>
      simp [Server.create_psa_ticket, strTruthy, intTruthy]
  · intro pt issue tech pcid dO cO h
    rcases h with h | h <;> subst h <;>
      simp [Server.create_psa_ticket_with_ai, strTruthy, intTruthy]

/-- C5 witness: calling ticket creation with every identity argument absent
returns the validation envelope without any outbound request. -/
theorem ticket_creation_validation_guard_witness :
    Server.create_psa_ticket "ConnectWise" "s" "d" 1 none none none none none none
      (.exn "e") = (Server.ticketValidationEnv, none) :=
  ticket_creation_validation_guard.2.1 "ConnectWise" "s" "d" 1 none none none none
    none (.exn "e") (Or.inl rfl)

/-- C7: the `timeSpent` field of the outbound time-entry request is the
input multiplied by 60 exactly when the unit tag lowercases to `hours`, and
the input unchanged otherwise; in particular 2.5 hours becomes 150. -/
theorem time_unit_conversion :
    (∀ (domain tid tech : String) (ts : ℚ) (notes wd : String) (b : Bool)
       (unit today : String) (o : TransportOutcome),
      pyLower unit = "hours" →
      List.lookup "timeSpent"
        (Server.create_psa_time_entry domain tid tech ts notes wd b unit today o).2 =
        some (.num (ts * 60))) ∧
    (∀ (domain tid tech : String) (ts : ℚ) (notes wd : String) (b : Bool)
       (unit today : String) (o : TransportOutcome),
      pyLower unit ≠ "hours" →
      List.lookup "timeSpent"
        (Server.create_psa_time_entry domain tid tech ts notes wd b unit today o).2 =
        some (.num ts)) ∧
    (List.lookup "timeSpent"
      (Server.create_psa_time_entry "d" "1" "t" (5 / 2) "n" "" true "hours"
        "2024-01-01" (.exn "e")).2 = some (.num 150)) := by
  refine ⟨?_, ?_, ?_⟩
  · intro domain tid tech ts notes wd b unit today o h
    simp [Server.create_psa_time_entry, h, List.lookup]
  · intro domain tid tech ts notes wd b unit today o h
    simp [Server.create_psa_time_entry, h, List.lookup]
  · simp [Server.create_psa_time_entry, List.lookup,
      show pyLower "hours" = "hours" from rfl]
    norm_num

/-- C7 witness: an uppercase unit tag is recognized and converted. -/
theorem time_unit_conversion_witness :
    List.lookup "timeSpent"
      (Server.create_psa_time_entry "d" "1" "t" 7 "n" "w" true "HOURS" "td"
        (.exn "e")).2 = some (.num (7 * 60)) :=
  time_unit_conversion.1 "d" "1" "t" 7 "n" "w" true "HOURS" "td" (.exn "e") rfl

/-- C8 counterexample: the entity-search validation failure is caught before
any network call and its message names the allowed set, but its `error`
label is `Invalid entity type: boards`, not `Validation Error` — refuting
the claim that every local validation failure carries that label. -/
theorem entity_search_mislabeled_validation :
    (Server.search_psa_entities "boards" "x" (.exn "e")).2 = none ∧
    (Server.search_psa_entities "boards" "x" (.exn "e")).1 =
      some (Server.invalidEntityTypeEnv "boards") ∧
    List.lookup "error" (Server.invalidEntityTypeEnv "boards") =
      some (.str "Invalid entity type: boards") ∧
    List.lookup "error" (Server.invalidEntityTypeEnv "boards") ≠
      some (.str "Validation Error") := by
  refine ⟨rfl, rfl, rfl, fun h => ?_⟩
  exact absurd (JVal.str.inj (Option.some.inj h)) (by decide)

/-- C8 (amended): validation failures in the ticket tools are labeled
`Validation Error` with an argument-naming message and no backend call; the
entity-search validation failure likewise precedes any backend call and its
message names the allowed set, but its error label embeds the rejected
value instead of `Validation Error`. -/
theorem validation_failure_labeling :
    (∀ (user_id tech_id : Option String) (o : TransportOutcome),
      user_id = none → tech_id = none →
      Server.get_psa_ticket_diagnostic user_id tech_id o =
        ([("success", .bool false), ("error", .str "Validation Error"),
          ("message", .str "Either user_id or tech_id must be provided")], false)) ∧
    (∀ (psa_type summary description : String) (board_id : ℤ)
       (pr cat sub : Option ℤ) (o : TransportOutcome),
      Server.create_psa_ticket psa_type summary description board_id none none none
        pr cat sub o = (Server.ticketValidationEnv, none)) ∧
    (∀ (entity_type search_term : String) (o : TransportOutcome),
      pyLower entity_type ≠ "clients" → pyLower entity_type ≠ "contacts" →
      pyLower entity_type ≠ "members" →
      Server.search_psa_entities entity_type search_term o =
        (some (Server.invalidEntityTypeEnv entity_type), none)) := by
  refine ⟨?_, ?_, ?_⟩
  · intro uid tid o h1 h2
    subst h1; subst h2
    simp [Server.get_psa_ticket_diagnostic, strTruthy]
  · intro pt su de bid pr cat sub o
    simp [Server.create_psa_ticket, strTruthy, intTruthy]
  · intro et term o h1 h2 h3
    simp [Server.search_psa_entities, h1, h2, h3]

/-- C8 witness: concrete runs of the diagnostic validation and of the
entity-search validation. -/
theorem validation_failure_labeling_witness :
    Server.get_psa_ticket_diagnostic none none (.exn "e") =
      ([("success", .bool false), ("error", .str "Validation Error"),
        ("message", .str "Either user_id or tech_id must be provided")], false) ∧
    Server.search_psa_entities "queues" "q" (.exn "e") =
      (some (Server.invalidEntityTypeEnv "queues"), none) :=
  ⟨validation_failure_labeling.1 none none (.exn "e") rfl rfl,
   validation_failure_labeling.2.2 "queues" "q" (.exn "e") (by decide) (by decide)
     (by decide)⟩

/-- C9: the entity search recognizes the entity type case-insensitively —
any string lowercasing to one of the three known types dispatches the
corresponding fetch instead of returning a validation envelope. -/
theorem entity_search_case_insensitive :
    ∀ (entity_type search_term : String) (o : TransportOutcome),
      (pyLower entity_type = "clients" →
        (Server.search_psa_entities entity_type search_term o).2 = some "clients") ∧
      (pyLower entity_type = "contacts" →
        (Server.search_psa_entities entity_type search_term o).2 = some "contacts") ∧
      (pyLower entity_type = "members" →
        (Server.search_psa_entities entity_type search_term o).2 = some "members") := by
  intro et term o
  refine ⟨fun h => ?_, fun h => ?_, fun h => ?_⟩
  · simp [Server.search_psa_entities, h]
  · simp [Server.search_psa_entities, h]
  · simp [Server.search_psa_entities, h]

/-- C9 witness: uppercase and capitalized entity types are dispatched. -/
theorem entity_search_case_insensitive_witness :
    (Server.search_psa_entities "CLIENTS" "q" (.exn "e")).2 = some "clients" ∧
    (Server.search_psa_entities "Members" "q" (.exn "e")).2 = some "members" :=
  ⟨(entity_search_case_insensitive "CLIENTS" "q" (.exn "e")).1 rfl,
   (entity_search_case_insensitive "Members" "q" (.exn "e")).2.2 rfl⟩

/-- C10: `create_weaviate_schema` returns the fixed already-exists envelope
without issuing the creation call exactly when the existence check reports
`success=true` and `schema_exists=true`; in every other case it issues the
creation call and returns that call envelope. -/
theorem weaviate_schema_create_guard :
    ∀ (co cr : TransportOutcome),
      (List.lookup "success" (WeaviateClient.check_schema_exists co) =
          some (.bool true) →
        List.lookup "schema_exists" (WeaviateClient.check_schema_exists co) =
          some (.bool true) →
        Server.create_weaviate_schema co cr =
          ([("success", .bool true), ("status", .str "already_exists"),
            ("message", .str "Schema already exists")], false)) ∧
      (¬(List.lookup "success" (WeaviateClient.check_schema_exists co) =
            some (.bool true) ∧
         List.lookup "schema_exists" (WeaviateClient.check_schema_exists co) =
            some (.bool true)) →
        Server.create_weaviate_schema co cr =
          (WeaviateClient.create_schema cr, true)) := by
  intro co cr
  constructor
  · intro h1 h2
    simp [Server.create_weaviate_schema, dget, h1, h2, jTruthy]
  · intro h
    cases co with
    | exn m =>
      simp [Server.create_weaviate_schema, WeaviateClient.check_schema_exists,
        errExn, dget, List.lookup, jTruthy]
    | resp s t b =>
      by_cases hs : s = 200
      · subst hs
        cases hc : strContains "true" (pyLower t) with
        | false =>
          simp [Server.create_weaviate_schema, WeaviateClient.check_schema_exists,
            dget, List.lookup, jTruthy, hc]
        | true =>
          exfalso
          apply h
          constructor <;>
            simp [WeaviateClient.check_schema_exists, List.lookup, hc]
      · simp [Server.create_weaviate_schema, WeaviateClient.check_schema_exists,
          hs, dget, List.lookup, jTruthy]

/-- C10 witness: a check response whose body text contains `true` makes the
tool answer already-exists without a creation call. -/
theorem weaviate_schema_create_guard_witness :
    Server.create_weaviate_schema (.resp 200 "true" none) (.exn "later") =
      ([("success", .bool true), ("status", .str "already_exists"),
        ("message", .str "Schema already exists")], false) :=
  (weaviate_schema_create_guard (.resp 200 "true" none) (.exn "later")).1 rfl rfl

/-- Helper: the `time_entry` field read by the bulk tool is always a dict
(it is set to the decoded body object on the only branch with a truthy
`success`, and the `.get` default covers every other branch). -/
theorem create_time_entry_payload_obj (o : TransportOutcome) :
    ∃ te, dget (PSATimeEntryClient.create_time_entry o) "time_entry" (.obj []) =
      .obj te := by
  cases o with
  | exn m => exact ⟨[], rfl⟩
  | resp s t b =>
    simp only [PSATimeEntryClient.create_time_entry]
    by_cases h200 : s = 200
    · subst h200
      rw [if_pos rfl]
      cases b with
      | none => exact ⟨[], rfl⟩
      | some j => cases j <;> first | exact ⟨[], rfl⟩ | exact ⟨_, rfl⟩
    · rw [if_neg h200]
      by_cases h500 : s = 500
      · subst h500
        rw [if_pos rfl]
        cases b with
        | none => exact ⟨[], rfl⟩
        | some j => cases j <;> exact ⟨[], rfl⟩
      · rw [if_neg h500]
        exact ⟨[], rfl⟩

/-- Helper: full characterization of the bulk loop under the hypothesis that
every entry carries a numeric `time_minutes`: it never raises, issues one
request per entry in order, counts successes as the oracle dictates, sums
the minutes of the successful entries, and preserves entry order in the
per-entry results. -/
theorem log_bulk_aux_spec (domain tech today : String)
    (oracle : ℕ → TransportOutcome) :
    ∀ (entries : List Envelope) (i : ℕ),
      (∀ e ∈ entries, ∃ q, dget e "time_minutes" (.num 0) = .num q) →
      ∃ acc, Server.log_bulk_aux domain tech today oracle entries i = some acc ∧
        acc.requests = entries.map (Server.bulkEntryRequest domain tech today) ∧
        acc.successful = Server.succeededCount oracle entries i ∧
        acc.successful + acc.failed = entries.length ∧
        acc.total_minutes = Server.succeededMinutes oracle entries i ∧
        acc.entry_results.map (fun er => dget er "ticket_id" .null) =
          entries.map (fun e => dget e "ticket_id" .null) := by
  intro entries
  induction entries with
  | nil =>
    intro i h
    exact ⟨⟨[], 0, 0, 0, []⟩, rfl, rfl, rfl, rfl, rfl, rfl⟩
  | cons e rest ih =>
    intro i h
    obtain ⟨q, hq⟩ := h e (List.mem_cons_self e rest)
    obtain ⟨acc, hacc, hreq, hsucc, hcount, htot, hids⟩ :=
      ih (i + 1) (fun e' he' => h e' (List.mem_cons_of_mem e he'))
    by_cases hs :
      jTruthy (dget (PSATimeEntryClient.create_time_entry (oracle i)) "success" .null) = true
    · obtain ⟨te, hte⟩ := create_time_entry_payload_obj (oracle i)
      refine ⟨⟨Server.bulkEntryRequest domain tech today e :: acc.requests,
               acc.successful + 1, acc.failed, q + acc.total_minutes,
               ([("ticket_id", dget e "ticket_id" .null),
                 ("success", dget (PSATimeEntryClient.create_time_entry (oracle i))
                    "success" (.bool false)),
                 ("minutes", JVal.num q),
                 ("time_entry_id", dget te "id" .null)]) :: acc.entry_results⟩,
             ?_, ?_, ?_, ?_, ?_, ?_⟩
      · simp only [Server.log_bulk_aux]
        rw [if_pos hs, hq, hte, hacc]
        rfl
      · rw [List.map_cons, hreq]
      · simp [Server.succeededCount, hs, hsucc, Nat.add_comm]
      · simp only [List.length_cons]
        omega
      · simp [Server.succeededMinutes, hs, Server.entryMinutes, hq, htot]
      · simp only [List.map_cons]
        rw [hids]
        rfl
    · refine ⟨⟨Server.bulkEntryRequest domain tech today e :: acc.requests,
               acc.successful, acc.failed + 1, acc.total_minutes,
               ([("ticket_id", dget e "ticket_id" .null),
                 ("success", dget (PSATimeEntryClient.create_time_entry (oracle i))
                    "success" (.bool false)),
                 ("minutes", dget e "time_minutes" (.num 0)),
                 ("error", dget (PSATimeEntryClient.create_time_entry (oracle i))
                    "error" (.str "Unknown error"))]) :: acc.entry_results⟩,
             ?_, ?_, ?_, ?_, ?_, ?_⟩
      · simp only [Server.log_bulk_aux]
        rw [if_neg hs, hacc]
        rfl
      · rw [List.map_cons, hreq]
      · simp [Server.succeededCount, hs, hsucc]
      · simp only [List.length_cons]
        omega
      · simp [Server.succeededMinutes, hs, htot]
      · simp only [List.map_cons]
        rw [hids]
        rfl

/-- C6: over any list of entries with numeric `time_minutes`, the bulk tool
attempts every entry (one outbound request per entry, in order), reports
counts summing to the list length with `overall_success` true exactly on
zero failures, sums the minutes of the successful entries, derives
`total_hours_logged = round(total_minutes / 60, 2)`, and preserves input
order in the per-entry results; on the two-entry 30/60 example with the
second backend call failing, the result is successful=1, failed=1,
total_minutes_logged=30, total_hours_logged=0.5, overall_success=false. -/
theorem bulk_time_entries_aggregation :
    (∀ (domain tech today : String) (entries : List Envelope)
       (oracle : ℕ → TransportOutcome),
      (∀ e ∈ entries, ∃ q, dget e "time_minutes" (.num 0) = .num q) →
      ∃ r, Server.log_bulk_time_entries domain tech today entries oracle = some r ∧
        r.total_entries = entries.length ∧
        r.requests = entries.map (Server.bulkEntryRequest domain tech today) ∧
        r.successful = Server.succeededCount oracle entries 0 ∧
        r.successful + r.failed = entries.length ∧
        r.total_minutes_logged = Server.succeededMinutes oracle entries 0 ∧
        r.total_hours_logged = Server.pyRound2 (r.total_minutes_logged / 60) ∧
        (r.overall_success = true ↔ r.failed = 0) ∧
        r.entries.map (fun er => dget er "ticket_id" .null) =
          entries.map (fun e => dget e "ticket_id" .null)) ∧
    (∃ r, Server.log_bulk_time_entries "d" "t" "2024-01-01" Server.exampleEntries
        Server.exampleOracle = some r ∧
      r.successful = 1 ∧ r.failed = 1 ∧ r.total_minutes_logged = 30 ∧
      r.total_hours_logged = 1 / 2 ∧ r.overall_success = false ∧
      r.requests.length = 2) := by
  have hgen : ∀ (domain tech today : String) (entries : List Envelope)
      (oracle : ℕ → TransportOutcome),
      (∀ e ∈ entries, ∃ q, dget e "time_minutes" (.num 0) = .num q) →
      ∃ r, Server.log_bulk_time_entries domain tech today entries oracle = some r ∧
        r.total_entries = entries.length ∧
        r.requests = entries.map (Server.bulkEntryRequest domain tech today) ∧
        r.successful = Server.succeededCount oracle entries 0 ∧
        r.successful + r.failed = entries.length ∧
        r.total_minutes_logged = Server.succeededMinutes oracle entries 0 ∧
        r.total_hours_logged = Server.pyRound2 (r.total_minutes_logged / 60) ∧
        (r.overall_success = true ↔ r.failed = 0) ∧
        r.entries.map (fun er => dget er "ticket_id" .null) =
          entries.map (fun e => dget e "ticket_id" .null) := by
    intro domain tech today entries oracle h
    obtain ⟨acc, hacc, hreq, hsucc, hcount, htot, hids⟩ :=
      log_bulk_aux_spec domain tech today oracle entries 0 h
    refine ⟨⟨entries.length, acc.successful, acc.failed, acc.total_minutes,
             acc.entry_results, decide (acc.failed = 0),
             Server.pyRound2 (acc.total_minutes / 60), acc.requests⟩,
           ?_, rfl, hreq, hsucc, hcount, htot, rfl, ?_, hids⟩
    · unfold Server.log_bulk_time_entries
      rw [hacc]
      rfl
    · simp
  refine ⟨hgen, ?_⟩
  obtain ⟨r, hr, _, hreqE, hsuccE, hcountE, htotE, hhoursE, hoverallE, _⟩ :=
    hgen "d" "t" "2024-01-01" Server.exampleEntries Server.exampleOracle
      (by
        intro e he
        simp [Server.exampleEntries] at he
        rcases he with rfl | rfl
        · exact ⟨30, rfl⟩
        · exact ⟨60, rfl⟩)
  have hlen : Server.exampleEntries.length = 2 := rfl
  have hsucc1 : r.successful = 1 := by
    rw [hsuccE]; rfl
  have hfail1 : r.failed = 1 := by omega
  have htot30 : r.total_minutes_logged = 30 := by
    rw [htotE,
      show Server.succeededMinutes Server.exampleOracle Server.exampleEntries 0 =
        (30 : ℚ) + (0 + 0) from rfl]
    norm_num
  refine ⟨r, hr, hsucc1, hfail1, htot30, ?_, ?_, ?_⟩
  · rw [hhoursE, htot30]
    unfold Server.pyRound2 Server.roundHalfToEven
    norm_num
  · cases hb : r.overall_success
    · rfl
    · exact absurd (hoverallE.mp hb) (by omega)
  · rw [hreqE]
    rfl

/-- C6 witness: a one-entry bulk run against a failing backend flows through
the aggregation theorem. -/
theorem bulk_time_entries_aggregation_witness :
    ∃ r, Server.log_bulk_time_entries "dd" "tt" "2024-02-02"
        [[("ticket_id", .str "9"), ("time_minutes", .num 15)]]
        (fun _ => .exn "down") = some r ∧
      r.successful + r.failed = 1 := by
  obtain ⟨r, hr, _, _, _, hc, _⟩ :=
    bulk_time_entries_aggregation.1 "dd" "tt" "2024-02-02"
      [[("ticket_id", .str "9"), ("time_minutes", .num 15)]] (fun _ => .exn "down")
      (by
        intro e he
        simp at he
        subst he
        exact ⟨15, rfl⟩)
  exact ⟨r, hr, hc⟩

end SimpleMcp
